import Mathlib

/-!
Verification of the gdb `explore` command implementation
(`share/gdb/python/gdb/command/explore.py`) against its specification.

The Python module is shallowly embedded:

* `gdb.Type` values become `GType` trees, carrying the gdb type code, the
  display name (`str(type)`), the target type (pointee / element / referent /
  fully-stripped alias) and the field list (for structs and unions).
* `gdb.Value` values become `Value` trees, carrying their `GType`, the text
  produced by `str(value)`, a flag telling whether `str(value)` succeeds or
  raises `gdb.MemoryError`, the dereferenced value (for pointers and
  references), the indexed elements (for pointers and arrays) and the field
  values (for structs, unions and base-class subobjects).
* Terminal interaction is a trace: every `print` emits an event, every
  `raw_input` consumes the next string from the pending input list (the empty
  string once the list is exhausted) and records the prompt together with the
  consumed answer.  Every entry into the dispatcher `Explorer.explore_expr`
  records a `recurse` event carrying the expression path and the `is_child`
  flag.
* The unbounded interactive recursion is driven by a fuel parameter; all
  theorems about concrete sessions supply enough fuel for the session to run
  to completion, and all general theorems are stated about single handler
  invocations, which are fuel-free (the handlers receive the dispatcher as an
  explicit `dispatch` argument, exactly as they call the real
  `Explorer.explore_expr` in the source).
-/

/-- The gdb type codes that the explorer distinguishes.  `tOther` stands for
every code that `Explorer.init_env` leaves out of
`type_code_to_explorer_map`. -/
inductive TypeCode : Type where
  | tChar | tInt | tBool | tFlt | tVoid | tEnum
  | tStruct | tUnion | tPtr | tRef | tRvalueRef | tTypedef | tArray
  | tOther
deriving DecidableEq, Repr

mutual
/-- Embedding of `gdb.Type`: type code, `str(type)`, the target type
(pointee for pointers, element type for arrays, referent for references, the
fully `strip_typedefs`-stripped type for typedefs; `none` otherwise) and the
ordered field list for structs/unions. -/
inductive GType : Type where
  | mk : TypeCode → String → Option GType → List GField → GType

/-- Embedding of a `gdb.Field`: `name`, `artificial`, `is_base_class` and
`type`. -/
inductive GField : Type where
  | mk : String → Bool → Bool → GType → GField
end

def GType.code : GType → TypeCode
  | GType.mk c _ _ _ => c

def GType.name : GType → String
  | GType.mk _ n _ _ => n

def GType.target : GType → Option GType
  | GType.mk _ _ t _ => t

def GType.fields : GType → List GField
  | GType.mk _ _ _ fs => fs

/-- `type.target()`.  In the source this is only ever called on types that do
have a target (pointers, arrays, references); for totality the type itself is
returned when no target is present. -/
def GType.targetD (t : GType) : GType := (GType.target t).getD t

def GField.name : GField → String
  | GField.mk n _ _ _ => n

def GField.artificial : GField → Bool
  | GField.mk _ a _ _ => a

def GField.is_base_class : GField → Bool
  | GField.mk _ _ b _ => b

def GField.ftype : GField → GType
  | GField.mk _ _ _ t => t

/-- Embedding of `gdb.Value`:
`mk vtype vstr readable deref elems fieldVals` where

* `vtype` is `value.type`;
* `vstr` is the text produced by `str(value)` when the read succeeds;
* `readable` tells whether `str(value)` succeeds (`false` models
  `gdb.MemoryError`);
* `deref` is `value.dereference()` for pointers and
  `value.referenced_value()` for references (`none` for other values);
* `elems i` is `value[i]` for pointers and arrays (`none` models a
  `gdb.MemoryError` raised already by the subscript);
* `fieldVals` stores `value[field_name]` for struct/union fields, and the
  base-class subobject keyed by the base type name for `value.cast` to a
  base-class type. -/
inductive Value : Type where
  | mk : GType → String → Bool → Option Value → (Int → Option Value) →
      List (String × Value) → Value

def Value.vtype : Value → GType
  | Value.mk t _ _ _ _ _ => t

def Value.vstr : Value → String
  | Value.mk _ s _ _ _ _ => s

def Value.readable : Value → Bool
  | Value.mk _ _ r _ _ _ => r

def Value.deref : Value → Option Value
  | Value.mk _ _ _ d _ _ => d

def Value.elems : Value → Int → Option Value
  | Value.mk _ _ _ _ e _ => e

def Value.fieldVals : Value → List (String × Value)
  | Value.mk _ _ _ _ _ f => f

/-- A placeholder value; it is returned by the partial accessors below on
arguments on which the Python code would raise, and is never reached in any
run considered in this file. -/
def Value.invalid : Value :=
  Value.mk (GType.mk TypeCode.tVoid "void" none []) "" false none
    (fun _ => none) []

/-- `value[field_name]` for a struct/union value. -/
def Value.getField (v : Value) (fname : String) : Value :=
  match List.lookup fname (Value.fieldVals v) with
  | some fv => fv
  | none => Value.invalid

/-- Rebuild a value at a new type (a plain reinterpreting cast). -/
def Value.retype : Value → GType → Value
  | Value.mk _ s r d e f, t => Value.mk t s r d e f

/-- `value.cast(t)`.  Casting a struct/class value to one of its base-class
types yields the base subobject (stored in `fieldVals` under the base type
name, which is also the pseudo-field's name); any other cast (the typedef
explorer casts to the stripped type) reinterprets the value at `t`. -/
def Value.cast (v : Value) (t : GType) : Value :=
  match List.lookup (GType.name t) (Value.fieldVals v) with
  | some bv => bv
  | none => Value.retype v t

/-- `element = value[index]` followed by `str(element)`, the guarded element
read performed by both the array explorer and the pointer-as-array loop;
`none` models `gdb.MemoryError` raised by either line. -/
def Value.readElem (v : Value) (i : Int) : Option Value :=
  match Value.elems v i with
  | some el => if Value.readable el then some el else none
  | none => none

/-- `deref_value = value.dereference()` followed by `str(deref_value)`, the
guarded dereference performed by the pointer explorer; `none` models
`gdb.MemoryError`. -/
def Value.readDeref (v : Value) : Option Value :=
  match Value.deref v with
  | some d => if Value.readable d then some d else none
  | none => none

/-! ## `Explorer.guard_expr` -/

/-- The per-character test of the scan loop in `Explorer.guard_expr`: `true`
iff the character forces the expression to be parenthesized, i.e. iff it lies
outside `[A-Za-z0-9_]`. -/
def Explorer.guardChar (c : Char) : Bool :=
  decide (c ≠ '_' ∧ ¬('a' ≤ c ∧ c ≤ 'z') ∧ ¬('A' ≤ c ∧ c ≤ 'Z') ∧
    ¬('0' ≤ c ∧ c ≤ '9'))

/-- The `guard` flag computed by `Explorer.guard_expr` on a non-empty
character list: the scan runs only when the expression does not both begin
with `(` and end with `)`, and sets the flag iff some character is outside
`[A-Za-z0-9_]`. -/
def Explorer.guardNeeded (l : List Char) : Bool :=
  (!(l.headD ' ' == '(') || !(l.getLastD ' ' == ')')) &&
    l.any Explorer.guardChar

/-- `Explorer.guard_expr`.  The source evaluates `expr[0]`, which raises
`IndexError` on the empty string; this partiality is modelled by `none`. -/
def Explorer.guard_expr (e : String) : Option String :=
  if e.data.isEmpty then none
  else some (if Explorer.guardNeeded e.data then "(" ++ e ++ ")" else e)

/-- Total adapter for `Explorer.guard_expr` used by the handlers.  Every
interactive call site passes a non-empty expression (command arguments are
checked non-empty and child paths are built by appending to their parent), so
the default branch is never reached in a run. -/
def Explorer.guard_exprD (e : String) : String :=
  (Explorer.guard_expr e).getD e

/-- The character class `[A-Za-z0-9_]` as the specification states it. -/
def wordChar (c : Char) : Bool :=
  decide (c = '_' ∨ ('a' ≤ c ∧ c ≤ 'z') ∨ ('A' ≤ c ∧ c ≤ 'Z') ∨
    ('0' ≤ c ∧ c ≤ '9'))

/-! ## Python `int(...)` on interactive input -/

def digitVal (c : Char) : Option Nat :=
  if '0' ≤ c ∧ c ≤ '9' then some (c.toNat - '0'.toNat) else none

def parseDigits (ds : List Char) : Option Nat :=
  match ds with
  | [] => none
  | _ =>
    ds.foldl
      (fun acc c =>
        match acc, digitVal c with
        | some n, some d => some (n * 10 + d)
        | _, _ => none)
      (some 0)

/-- Remove leading and trailing whitespace. -/
def stripWS (l : List Char) : List Char :=
  ((l.dropWhile Char.isWhitespace).reverse.dropWhile Char.isWhitespace).reverse

/-- Embedding of Python `int(s)` as used on the interactive answers:
surrounding whitespace is ignored, an optional sign is followed by at least
one decimal digit; everything else raises `ValueError`, modelled by
`none`. -/
def parseInt (s : String) : Option Int :=
  match stripWS s.data with
  | '-' :: ds => (parseDigits ds).map (fun n => -(n : Int))
  | '+' :: ds => (parseDigits ds).map (fun n => (n : Int))
  | ds => (parseDigits ds).map (fun n => (n : Int))

/-! ## Terminal interaction -/

/-- One observable step of a session: a `print`, a `raw_input` (prompt and
the answer it consumed) or an entry into the dispatcher
`Explorer.explore_expr` (expression path and `is_child` flag). -/
inductive Event : Type where
  | print : String → Event
  | read : String → String → Event
  | recurse : String → Bool → Event
deriving DecidableEq, Repr

/-- The session state: the pending interactive answers and the trace of
events so far. -/
structure ExpState : Type where
  inputs : List String
  trace : List Event
deriving DecidableEq, Repr

def ExpState.emit (st : ExpState) (ev : Event) : ExpState :=
  { st with trace := st.trace ++ [ev] }

/-- `raw_input(prompt)`: consume the next pending answer (the empty string
once the answers are exhausted) and record the exchange. -/
def ExpState.readLine (st : ExpState) (prompt : String) : String × ExpState :=
  match st.inputs with
  | [] => ("", { st with trace := st.trace ++ [Event.read prompt ""] })
  | i :: rest => (i, { inputs := rest, trace := st.trace ++ [Event.read prompt i] })

/-! The exact prompt and message texts of the source (`\x27` is the ASCII
apostrophe). -/

def promptReturnParent : String := "\nPress enter to return to parent value: "

def msgReturnParent : String := "\nReturning to parent value...\n"

def promptContinue : String := "Press enter to continue... "

def promptSingleValue : String :=
  "Continue exploring it as a pointer to a single value [y/n]: "

def promptAsArray : String :=
  "Continue exploring it as a pointer to an array [y/n]: "

def promptIndex (expr : String) : String :=
  "Enter the index of the element you want to explore in \x27" ++ expr ++
    "\x27: "

def promptFieldChoice : String := "Enter the field number of choice: "

def msgScalarHeader (expr tyname : String) : String :=
  "\x27" ++ expr ++ "\x27 is a scalar value of type \x27" ++ tyname ++
    "\x27."

def msgScalarValue (expr text : String) : String := expr ++ " = " ++ text

def msgPointerHeader (expr tyname : String) : String :=
  "\x27" ++ expr ++ "\x27 is a pointer to a value of type \x27" ++ tyname ++
    "\x27"

def msgInvalidPointer (expr : String) : String :=
  "\x27" ++ expr ++ "\x27 a pointer pointing to an invalid memory location."

def msgCannotRead (i : Int) : String :=
  "Cannot read value at index " ++ toString i ++ "."

def msgArrayHeader (expr tyname : String) : String :=
  "\x27" ++ expr ++ "\x27 is an array of \x27" ++ tyname ++ "\x27."

def msgTypedefHeader (expr tyname actual : String) : String :=
  "The value of \x27" ++ expr ++ "\x27 is of type \x27" ++ tyname ++
    "\x27 which is a typedef of type \x27" ++ actual ++ "\x27"

def msgNoFields (expr type_desc tyname : String) : String :=
  "The value of \x27" ++ expr ++ "\x27 is a " ++ type_desc ++
    " of type \x27" ++ tyname ++ "\x27 with no fields."

def msgCompoundHeader (expr type_desc tyname : String) : String :=
  "The value of \x27" ++ expr ++ "\x27 is a " ++ type_desc ++
    " of type \x27" ++ tyname ++ "\x27 with the following fields:\n"

def msgNotAvailable (tyname : String) : String :=
  "Explorer for type \x27" ++ tyname ++ "\x27 not yet available.\n"

/-! ## The explorer classes -/

/-- `Explorer.is_scalar_type`: membership of the type code in
`Explorer._SCALAR_TYPE_LIST`. -/
def Explorer.is_scalar_type (t : GType) : Bool :=
  match GType.code t with
  | TypeCode.tChar | TypeCode.tInt | TypeCode.tBool | TypeCode.tFlt
  | TypeCode.tVoid | TypeCode.tEnum => true
  | _ => false

/-- Membership of a type code in `Explorer.type_code_to_explorer_map` as
populated by `Explorer.init_env`: every code except the unregistered ones
(`tOther`). -/
def Explorer.has_explorer : TypeCode → Bool
  | TypeCode.tOther => false
  | _ => true

/-- The type of the dispatcher as seen from a handler: the handlers receive
`Explorer.explore_expr` (at the current fuel) as this argument and call it
for their child nodes. -/
abbrev Dispatch : Type := String → Value → Bool → ExpState → ExpState

/-- `ScalarExplorer.explore_expr`.  Prints the description and the value; a
child exploration then issues the return-to-parent prompt and banner.
Always returns `false` (Return). -/
def ScalarExplorer.explore_expr (expr : String) (v : Value) (is_child : Bool)
    (st : ExpState) : Bool × ExpState :=
  let st := ExpState.emit st
    (Event.print (msgScalarHeader expr (GType.name (Value.vtype v))))
  let st := ExpState.emit st (Event.print (msgScalarValue expr (Value.vstr v)))
  let st :=
    if is_child then
      ExpState.emit (ExpState.readLine st promptReturnParent).2
        (Event.print msgReturnParent)
    else st
  (false, st)

/-- The `while True` loop of the pointer-as-array branch of
`PointerExplorer.explore_expr`.  Each round prompts for an index; a
non-integer answer breaks out of the loop; an element whose read raises
`gdb.MemoryError` is reported and the loop continues; a readable element is
explored as a child (path `guard(expr)[index]`, `is_child = True`) and the
loop continues.  The fuel only bounds the number of rounds; the source loop
is bounded by the user eventually giving a non-integer answer. -/
def PointerExplorer.explore_loop (dispatch : Dispatch) (expr : String)
    (v : Value) : Nat → ExpState → ExpState
  | 0, st => st
  | Nat.succ fuel, st =>
    let r := ExpState.readLine st (promptIndex expr)
    match parseInt r.1 with
    | none => r.2
    | some index =>
      let element_expr :=
        Explorer.guard_exprD expr ++ "[" ++ toString index ++ "]"
      match Value.readElem v index with
      | none =>
        PointerExplorer.explore_loop dispatch expr v fuel
          (ExpState.emit r.2 (Event.print (msgCannotRead index)))
      | some element =>
        PointerExplorer.explore_loop dispatch expr v fuel
          (dispatch element_expr element true r.2)

/-- `PointerExplorer.explore_expr`.  Offers the single-value exploration,
then the as-array exploration.  A successful dereference is explored with
path `*guard(expr)` and the pointer's own `is_child` flag; a failing one is
reported (with the return-to-parent prompt when a child).  Always returns
`false` (Return). -/
def PointerExplorer.explore_expr (dispatch : Dispatch) (fuel : Nat)
    (expr : String) (v : Value) (is_child : Bool) (st : ExpState) :
    Bool × ExpState :=
  let st := ExpState.emit st
    (Event.print (msgPointerHeader expr
      (GType.name (GType.targetD (Value.vtype v)))))
  let r := ExpState.readLine st promptSingleValue
  if r.1 == "y" then
    match Value.readDeref v with
    | none =>
      let st := ExpState.emit r.2 (Event.print (msgInvalidPointer expr))
      let st :=
        if is_child then (ExpState.readLine st promptReturnParent).2 else st
      (false, st)
    | some deref_value =>
      (false,
        dispatch ("*" ++ Explorer.guard_exprD expr) deref_value is_child r.2)
  else
    let r2 := ExpState.readLine r.2 promptAsArray
    if r2.1 == "y" then
      (false, PointerExplorer.explore_loop dispatch expr v fuel r2.2)
    else
      let st :=
        if is_child then ExpState.emit r2.2 (Event.print msgReturnParent)
        else r2.2
      (false, st)

/-- `ReferenceExplorer.explore_expr`: transparently explore the referenced
value under the same path and flag.  (`Value.deref` stores
`referenced_value()` for reference values; the `none` branch is unreachable
for well-formed references.) -/
def ReferenceExplorer.explore_expr (dispatch : Dispatch) (expr : String)
    (v : Value) (is_child : Bool) (st : ExpState) : Bool × ExpState :=
  match Value.deref v with
  | some referenced_value => (false, dispatch expr referenced_value is_child st)
  | none => (false, st)

/-- `TypedefExplorer.explore_expr`: disclose the alias, then explore the
value cast to the stripped type under the same path and flag.  (The target
of a typedef `GType` stores the result of `strip_typedefs()`.) -/
def TypedefExplorer.explore_expr (dispatch : Dispatch) (expr : String)
    (v : Value) (is_child : Bool) (st : ExpState) : Bool × ExpState :=
  let actual_type := GType.targetD (Value.vtype v)
  let st := ExpState.emit st
    (Event.print (msgTypedefHeader expr (GType.name (Value.vtype v))
      (GType.name actual_type)))
  (false, dispatch expr (Value.cast v actual_type) is_child st)

/-- `ArrayExplorer.explore_expr`.  A single interactive step, repeated by the
dispatcher loop: prompt for one index; a non-integer answer returns `false`
(Return, with the return banner when a child); an element whose read raises
`gdb.MemoryError` is reported, acknowledged, and the handler returns `true`
(Repeat); a readable element is explored as a child (path
`guard(expr)[index]`, `is_child = True`) and the handler returns `true`
(Repeat). -/
def ArrayExplorer.explore_expr (dispatch : Dispatch) (expr : String)
    (v : Value) (is_child : Bool) (st : ExpState) : Bool × ExpState :=
  let target_type := GType.targetD (Value.vtype v)
  let st := ExpState.emit st
    (Event.print (msgArrayHeader expr (GType.name target_type)))
  let r := ExpState.readLine st (promptIndex expr)
  match parseInt r.1 with
  | none =>
    let st :=
      if is_child then ExpState.emit r.2 (Event.print msgReturnParent)
      else r.2
    (false, st)
  | some index =>
    match Value.readElem v index with
    | none =>
      let st := ExpState.emit r.2 (Event.print (msgCannotRead index))
      let st := (ExpState.readLine st promptContinue).2
      (true, st)
    | some element =>
      (true,
        dispatch (Explorer.guard_exprD expr ++ "[" ++ toString index ++ "]")
          element true r.2)

/-! ## `CompoundExplorer` -/

/-- `CompoundExplorer._get_real_field_count`: the number of non-artificial
fields. -/
def CompoundExplorer.get_real_field_count (fields : List GField) : Nat :=
  (fields.filter (fun f => !(GField.artificial f))).length

/-- The non-artificial fields, in declaration order. -/
def realFields (fields : List GField) : List GField :=
  fields.filter (fun f => !(GField.artificial f))

/-- The field value computed by the menu loop: `value.cast(field.type)` for a
base-class pseudo-field, `value[field.name]` otherwise. -/
def fieldValueOf (v : Value) (f : GField) : Value :=
  if GField.is_base_class f then Value.cast v (GField.ftype f)
  else Value.getField v (GField.name f)

/-- The `literal_value` string the menu loop attaches to a non-artificial
field that received choice number `i`: for a union always the numbered
explore invitation; for a struct/class a scalar field is rendered inline with
its value, every other field gets the numbered explore invitation. -/
def literalFor (type_code : TypeCode) (v : Value) (i : Nat) (f : GField) :
    String :=
  if type_code == TypeCode.tUnion then
    "<Enter " ++ toString i ++ " to explore this field of type \x27" ++
      GType.name (GField.ftype f) ++ "\x27>"
  else if Explorer.is_scalar_type (GField.ftype f) then
    Value.vstr (fieldValueOf v f) ++ " .. (Value of type \x27" ++
      GType.name (GField.ftype f) ++ "\x27)"
  else
    "<Enter " ++ toString i ++ " to explore this " ++
      (if GField.is_base_class f then "base class" else "field") ++
      " of type \x27" ++ GType.name (GField.ftype f) ++ "\x27>"

/-- Whether the branch taken for the field sets `has_explorable_fields`:
the union branch and the non-scalar struct branch do, the inline scalar
branch does not. -/
def explorableFlag (type_code : TypeCode) (f : GField) : Bool :=
  type_code == TypeCode.tUnion ||
    !(Explorer.is_scalar_type (GField.ftype f))

/-- The accumulator of the field-menu loop of
`CompoundExplorer.explore_expr`: the `has_explorable_fields` flag, the
`choice_to_compound_field_map` dictionary (keyed by the decimal choice
number, mapping to the child path and the field value), the running
`current_choice` counter and the `print_list` of (field name, literal)
lines. -/
structure MenuState : Type where
  has_explorable_fields : Bool
  choice_to_compound_field_map : List (String × String × Value)
  current_choice : Nat
  print_list : List (String × String)

/-- One iteration of the field-menu loop: an artificial field is skipped;
any other field is entered into the choice map under the current choice
number (whether or not it is offered as an explorable choice), the counter
advances and the display line is appended. -/
def CompoundExplorer.menuStep (type_code : TypeCode) (expr : String)
    (v : Value) (acc : MenuState) (field : GField) : MenuState :=
  if GField.artificial field then acc
  else
    { has_explorable_fields :=
        acc.has_explorable_fields || explorableFlag type_code field,
      choice_to_compound_field_map :=
        acc.choice_to_compound_field_map ++
          [(toString acc.current_choice,
            Explorer.guard_exprD expr ++ "." ++ GField.name field,
            fieldValueOf v field)],
      current_choice := acc.current_choice + 1,
      print_list :=
        acc.print_list ++
          [(GField.name field,
            literalFor type_code v acc.current_choice field)] }

/-- The whole field-menu loop of `CompoundExplorer.explore_expr`. -/
def CompoundExplorer.buildMenu (type_code : TypeCode) (expr : String)
    (v : Value) (fields : List GField) : MenuState :=
  fields.foldl (CompoundExplorer.menuStep type_code expr v)
    { has_explorable_fields := false,
      choice_to_compound_field_map := [],
      current_choice := 0,
      print_list := [] }

/-- Right-justify `s` in a field of width `w` (Python `"%*s"`). -/
def padLeft (w : Nat) (s : String) : String :=
  String.mk (List.replicate (w - s.length) ' ') ++ s

/-- `CompoundExplorer._print_fields`: print each (name, literal) pair with
the names right-aligned on the longest one. -/
def CompoundExplorer.print_fields (st : ExpState)
    (print_list : List (String × String)) : ExpState :=
  let m := print_list.foldl (fun acc p => max acc p.1.length) 0
  print_list.foldl
    (fun s p =>
      ExpState.emit s (Event.print ("  " ++ padLeft m p.1 ++ " = " ++ p.2)))
    st

/-- `CompoundExplorer.explore_expr`.  A struct/union with no non-artificial
fields is reported (with the return-to-parent prompt when a child) and the
handler returns `false` (Return).  Otherwise the field menu is built and
displayed; if it has explorable fields the user is asked for a choice
number: a key of the choice map sends the corresponding field into a child
exploration and returns `true` (Repeat), anything else returns `false`
(Return, with the return banner when a child).  A menu with no explorable
fields (all-scalar struct) just offers the return prompt when a child and
returns `false`. -/
def CompoundExplorer.explore_expr (dispatch : Dispatch) (expr : String)
    (v : Value) (is_child : Bool) (st : ExpState) : Bool × ExpState :=
  let datatype := Value.vtype v
  let type_code := GType.code datatype
  let fields := GType.fields datatype
  let type_desc :=
    if type_code == TypeCode.tStruct then "struct/class" else "union"
  if CompoundExplorer.get_real_field_count fields == 0 then
    let st := ExpState.emit st
      (Event.print (msgNoFields expr type_desc (GType.name datatype)))
    let st :=
      if is_child then (ExpState.readLine st promptReturnParent).2 else st
    (false, st)
  else
    let st := ExpState.emit st
      (Event.print (msgCompoundHeader expr type_desc (GType.name datatype)))
    let menu := CompoundExplorer.buildMenu type_code expr v fields
    let st := CompoundExplorer.print_fields st menu.print_list
    let st := ExpState.emit st (Event.print "")
    if menu.has_explorable_fields then
      let r := ExpState.readLine st promptFieldChoice
      match List.lookup r.1 menu.choice_to_compound_field_map with
      | some fv => (true, dispatch fv.1 fv.2 true r.2)
      | none =>
        let st :=
          if is_child then ExpState.emit r.2 (Event.print msgReturnParent)
          else r.2
        (false, st)
    else
      let st :=
        if is_child then (ExpState.readLine st promptReturnParent).2 else st
      (false, st)

/-! ## The dispatcher `Explorer.explore_expr` -/

/-- The dispatch table lookup of `Explorer.explore_expr`: run the handler
registered for the value's type code (the `tOther` branch is unreachable, the
dispatcher tests `Explorer.has_explorer` first). -/
def Explorer.step (dispatch : Dispatch) (fuel : Nat) (expr : String)
    (v : Value) (is_child : Bool) (st : ExpState) : Bool × ExpState :=
  match GType.code (Value.vtype v) with
  | TypeCode.tStruct | TypeCode.tUnion =>
    CompoundExplorer.explore_expr dispatch expr v is_child st
  | TypeCode.tPtr =>
    PointerExplorer.explore_expr dispatch fuel expr v is_child st
  | TypeCode.tRef | TypeCode.tRvalueRef =>
    ReferenceExplorer.explore_expr dispatch expr v is_child st
  | TypeCode.tTypedef =>
    TypedefExplorer.explore_expr dispatch expr v is_child st
  | TypeCode.tArray =>
    ArrayExplorer.explore_expr dispatch expr v is_child st
  | TypeCode.tOther => (false, st)
  | _ => ScalarExplorer.explore_expr expr v is_child st

/-- The `while explorer_class.explore_expr(expr, value, is_child): pass`
loop of the dispatcher: re-run the handler step as long as it returns `true`
(Repeat).  The handler step is closed over the fixed `(expr, value,
is_child)` triple of the node. -/
def Explorer.explore_while (stepFn : ExpState → Bool × ExpState) :
    Nat → ExpState → ExpState
  | 0, st => st
  | Nat.succ fuel, st =>
    let r := stepFn st
    if r.1 then Explorer.explore_while stepFn fuel r.2 else r.2

/-- `Explorer.explore_expr`, the dispatcher: record the entry, then run the
registered handler in the `while explorer_class.explore_expr(...)` loop, or
report an unregistered type code.  The fuel bounds the recursion depth and
the number of loop rounds; every concrete session in this file terminates
well within the supplied fuel. -/
def Explorer.explore_expr : Nat → String → Value → Bool → ExpState → ExpState
  | 0, _, _, _, st => st
  | Nat.succ fuel, expr, v, is_child, st =>
    let st := ExpState.emit st (Event.recurse expr is_child)
    if Explorer.has_explorer (GType.code (Value.vtype v)) then
      Explorer.explore_while
        (fun st2 =>
          Explorer.step (fun e vv c s => Explorer.explore_expr fuel e vv c s)
            fuel expr v is_child st2)
        (Nat.succ fuel) st
    else
      ExpState.emit st
        (Event.print (msgNotAvailable (GType.name (Value.vtype v))))

/-- The `recurse` events of a trace whose `is_child` flag is `true`: one per
recursive child exploration performed by a session. -/
def childRecursions (tr : List Event) : List Event :=
  tr.filter (fun e =>
    match e with
    | Event.recurse _ true => true
    | _ => false)

/-! ## Concrete values and sessions -/

def intType : GType := GType.mk TypeCode.tInt "int" none []

/-- A readable `int` value rendering as `s`. -/
def scalarVal (s : String) : Value :=
  Value.mk intType s true none (fun _ => none) []

def arrIntType : GType :=
  GType.mk TypeCode.tArray "int [3]" (some intType) []

/-- A three-element `int` array value whose elements read 10, 20, 30. -/
def arrVal : Value :=
  Value.mk arrIntType "aggregate" true none
    (fun i =>
      if i == 0 then some (scalarVal "10")
      else if i == 1 then some (scalarVal "20")
      else if i == 2 then some (scalarVal "30")
      else none) []

/-- The C1 session: explore the array `arr` answering `0`, enter, `1`,
enter, `x`. -/
def arraySession : ExpState :=
  Explorer.explore_expr 20 "arr" arrVal false
    { inputs := ["0", "", "1", "", "x"], trace := [] }

def ptrIntType : GType := GType.mk TypeCode.tPtr "int *" (some intType) []

/-- An `int` value whose read raises `gdb.MemoryError`. -/
def unreadableInt : Value :=
  Value.mk intType "" false none (fun _ => none) []

/-- An `int *` value: the pointee reads 99; indices 2 and 4 read 12 and 14,
index 3 raises `gdb.MemoryError`. -/
def ptrVal : Value :=
  Value.mk ptrIntType "0x1000" true (some (scalarVal "99"))
    (fun i =>
      if i == 2 then some (scalarVal "12")
      else if i == 3 then some unreadableInt
      else if i == 4 then some (scalarVal "14")
      else none) []

/-- An `int *` value pointing to unreadable memory: the dereference read
raises `gdb.MemoryError`. -/
def badPtrVal : Value :=
  Value.mk ptrIntType "0x0" true (some unreadableInt) (fun _ => none) []

/-- The first C2 session: explore the pointer `p` as an array answering `n`,
`y`, `2`, enter, `q`. -/
def ptrArraySession : ExpState :=
  Explorer.explore_expr 20 "p" ptrVal false
    { inputs := ["n", "y", "2", "", "q"], trace := [] }

/-- The second C2 session: explore the pointer `p` as an array answering
`n`, `y`, `3` (unreadable), `4`, enter, `x`. -/
def ptrArraySkipSession : ExpState :=
  Explorer.explore_expr 20 "p" ptrVal false
    { inputs := ["n", "y", "3", "4", "", "x"], trace := [] }

/-- The C3 session: explore the pointer `p` as a single value (answer `y`)
starting at the root, so `is_child = false`. -/
def ptrSingleSession : ExpState :=
  Explorer.explore_expr 20 "p" ptrVal false { inputs := ["y"], trace := [] }

def fieldA : GField := GField.mk "a" false false intType

def structBType : GType :=
  GType.mk TypeCode.tStruct "struct B" none
    [GField.mk "c" false false intType]

def fieldB : GField := GField.mk "b" false false structBType

def structSType : GType :=
  GType.mk TypeCode.tStruct "struct S" none [fieldA, fieldB]

/-- The value of field `b`: a `struct B` whose field `c` reads 7. -/
def bVal : Value :=
  Value.mk structBType "aggregate" true none (fun _ => none)
    [("c", scalarVal "7")]

/-- A `struct S` value with a scalar field `a` (reading 10) followed by a
struct field `b`. -/
def sVal : Value :=
  Value.mk structSType "aggregate" true none (fun _ => none)
    [("a", scalarVal "10"), ("b", bVal)]

/-- The C9 session: explore the struct `s` answering `0` (the choice number
of the inline scalar field `a`), then enter twice. -/
def structSession : ExpState :=
  Explorer.explore_expr 20 "s" sVal false
    { inputs := ["0", "", ""], trace := [] }

def structEType : GType := GType.mk TypeCode.tStruct "struct E" none []

/-- A struct value with no fields at all. -/
def eVal : Value :=
  Value.mk structEType "aggregate" true none (fun _ => none) []

/-! ## Properties of `Explorer.guard_expr` -/

theorem wordChar_iff (c : Char) :
    wordChar c = true ↔ Explorer.guardChar c = false := by
  simp only [wordChar, Explorer.guardChar, decide_eq_true_eq,
    decide_eq_false_iff_not]
  tauto

theorem getLastD_append_single (l : List Char) (a d : Char) :
    (l ++ [a]).getLastD d = a := by
  simp [List.getLastD_eq_getLast?, List.getLast?_concat]

theorem guardNeeded_eq_false_iff (l : List Char) :
    Explorer.guardNeeded l = false ↔
      ((l.headD ' ' = '(' ∧ l.getLastD ' ' = ')') ∨
        l.all wordChar = true) := by
  simp only [Explorer.guardNeeded, Bool.and_eq_false_iff,
    Bool.or_eq_false_iff, Bool.not_eq_false', beq_iff_eq,
    List.any_eq_false, List.all_eq_true]
  constructor
  · rintro (⟨h1, h2⟩ | h)
    · exact Or.inl ⟨h1, h2⟩
    · exact Or.inr
        (fun c hc => (wordChar_iff c).mpr (Bool.eq_false_iff.mpr (h c hc)))
  · rintro (⟨h1, h2⟩ | h)
    · exact Or.inl ⟨h1, h2⟩
    · exact Or.inr
        (fun c hc => Bool.eq_false_iff.mp ((wordChar_iff c).mp (h c hc)))

/-- C7: on a non-empty expression, `guard_expr` returns the expression
unchanged when it begins with `(` and ends with `)`, or when every character
lies in `[A-Za-z0-9_]`; otherwise it returns the expression wrapped in one
pair of parentheses.  In particular an all-word expression is never
altered. -/
theorem guard_expr_contract (e : String) (h : e ≠ "") :
    (((e.data.headD ' ' = '(' ∧ e.data.getLastD ' ' = ')') ∨
        e.data.all wordChar = true) →
      Explorer.guard_expr e = some e) ∧
    (¬((e.data.headD ' ' = '(' ∧ e.data.getLastD ' ' = ')') ∨
        e.data.all wordChar = true) →
      Explorer.guard_expr e = some ("(" ++ e ++ ")")) ∧
    (e.data.all wordChar = true → Explorer.guard_expr e = some e) := by
  obtain ⟨l⟩ := e
  have hl : l ≠ [] := by
    intro hh
    subst hh
    exact h rfl
  have hdata : (String.mk l).data = l := rfl
  refine ⟨?_, ?_, ?_⟩
  · intro hc
    have hg : Explorer.guardNeeded l = false :=
      (guardNeeded_eq_false_iff l).mpr (by simpa [hdata] using hc)
    cases l with
    | nil => exact absurd rfl hl
    | cons c cs => simp [Explorer.guard_expr, hg]
  · intro hc
    have hg : Explorer.guardNeeded l = true := by
      cases hgg : Explorer.guardNeeded l with
      | false =>
        exact absurd (by simpa [hdata] using
          (guardNeeded_eq_false_iff l).mp hgg) hc
      | true => rfl
    cases l with
    | nil => exact absurd rfl hl
    | cons c cs => simp [Explorer.guard_expr, hg]
  · intro hc
    have hg : Explorer.guardNeeded l = false :=
      (guardNeeded_eq_false_iff l).mpr (Or.inr (by simpa [hdata] using hc))
    cases l with
    | nil => exact absurd rfl hl
    | cons c cs => simp [Explorer.guard_expr, hg]

/-- Witness for C7 at the concrete input `"a+b"`: the `+` forces the
parenthesization. -/
theorem guard_expr_contract_witness :
    Explorer.guard_expr "a+b" = some ("(" ++ "a+b" ++ ")") :=
  (guard_expr_contract "a+b" (by decide)).2.1 (by decide)

/-- A parenthesized expression both begins with `(` and ends with `)`, so
`guard_expr` leaves it unchanged. -/
theorem guard_expr_wrapped (e : String) :
    Explorer.guard_expr ("(" ++ e ++ ")") = some ("(" ++ e ++ ")") := by
  have hdata : ("(" ++ e ++ ")").data = ('(' :: e.data) ++ [')'] := by
    obtain ⟨l⟩ := e
    rfl
  have hw : Explorer.guardNeeded (('(' :: e.data) ++ [')']) = false := by
    unfold Explorer.guardNeeded
    have h2 : (('(' :: e.data) ++ [')']).getLastD ' ' = ')' :=
      getLastD_append_single _ _ _
    rw [h2]
    simp
  unfold Explorer.guard_expr
  rw [hdata, hw]
  simp

/-- C8: `guard_expr` is idempotent on every non-empty expression. -/
theorem guard_expr_idempotent (e : String) (h : e ≠ "") :
    (Explorer.guard_expr e).bind Explorer.guard_expr =
      Explorer.guard_expr e := by
  obtain ⟨l⟩ := e
  have hl : l ≠ [] := by
    intro hh
    subst hh
    exact h rfl
  cases l with
  | nil => exact absurd rfl hl
  | cons c cs =>
    by_cases hg : Explorer.guardNeeded (c :: cs) = true
    · have e1 : Explorer.guard_expr (String.mk (c :: cs)) =
          some ("(" ++ String.mk (c :: cs) ++ ")") := by
        simp [Explorer.guard_expr, hg]
      rw [e1, Option.some_bind, guard_expr_wrapped]
    · have hg' : Explorer.guardNeeded (c :: cs) = false := by
        simpa using hg
      have e1 : Explorer.guard_expr (String.mk (c :: cs)) =
          some (String.mk (c :: cs)) := by
        simp [Explorer.guard_expr, hg']
      rw [e1, Option.some_bind, e1]

/-- Witness for C8 at the concrete input `"a+b"`. -/
theorem guard_expr_idempotent_witness :
    (Explorer.guard_expr "a+b").bind Explorer.guard_expr =
      Explorer.guard_expr "a+b" :=
  guard_expr_idempotent "a+b" (by decide)

/-- C10: `guard_expr` unconditionally reads the first character of its
argument, so it is undefined (an `IndexError`, modelled by `none`) exactly on
the empty string; on every non-empty string it is defined. -/
theorem guard_expr_empty_partial :
    Explorer.guard_expr "" = none ∧
      ∀ e : String, e ≠ "" → (Explorer.guard_expr e).isSome = true := by
  refine ⟨rfl, ?_⟩
  intro e h
  obtain ⟨l⟩ := e
  cases l with
  | nil => exact absurd rfl h
  | cons c cs => simp [Explorer.guard_expr]

/-- Witness for C10 at the concrete input `"x"`. -/
theorem guard_expr_empty_partial_witness :
    (Explorer.guard_expr "x").isSome = true :=
  guard_expr_empty_partial.2 "x" (by decide)

/-! ## Characterization of the field menu -/

/-- Closed form of the field-menu loop from an arbitrary accumulator: the
non-artificial fields are numbered consecutively from the incoming counter,
every one of them (explorable or inline) is entered into the choice map, and
the display line of the field numbered `i` is `literalFor`. -/
theorem menu_foldl_eq (type_code : TypeCode) (expr : String) (v : Value)
    (fields : List GField) (acc : MenuState) :
    fields.foldl (CompoundExplorer.menuStep type_code expr v) acc =
      { has_explorable_fields :=
          acc.has_explorable_fields ||
            (realFields fields).any (explorableFlag type_code),
        choice_to_compound_field_map :=
          acc.choice_to_compound_field_map ++
            (List.enumFrom acc.current_choice (realFields fields)).map
              (fun p =>
                (toString p.1,
                  Explorer.guard_exprD expr ++ "." ++ GField.name p.2,
                  fieldValueOf v p.2)),
        current_choice := acc.current_choice + (realFields fields).length,
        print_list :=
          acc.print_list ++
            (List.enumFrom acc.current_choice (realFields fields)).map
              (fun p => (GField.name p.2, literalFor type_code v p.1 p.2)) } := by
  induction fields generalizing acc with
  | nil => simp [realFields]
  | cons f fs ih =>
    by_cases ha : GField.artificial f = true
    · have hstep : CompoundExplorer.menuStep type_code expr v acc f = acc := by
        simp [CompoundExplorer.menuStep, ha]
      have hreal : realFields (f :: fs) = realFields fs := by
        simp [realFields, ha]
      rw [List.foldl_cons, hstep, ih, hreal]
    · have ha' : GField.artificial f = false := by simpa using ha
      have hreal : realFields (f :: fs) = f :: realFields fs := by
        simp [realFields, ha']
      rw [List.foldl_cons, ih, hreal, List.enumFrom_cons]
      simp [CompoundExplorer.menuStep, ha', Bool.or_assoc, List.any_cons]
      omega

/-! ## The claims -/

/-- C1: one invocation of `ArrayExplorer.explore_expr` is a single step.  A
non-integer index answer returns Return; a valid index whose element read
raises `gdb.MemoryError` reports the error and returns Repeat; a valid
readable index is handed to the dispatcher at path `guard(path)[index]` with
`is_child = true`, after which Repeat is returned.  Consequently the session
on the array `arr` with successive answers `0`, `1`, `x` performs exactly
the two child explorations `arr[0]` and `arr[1]` before terminating. -/
theorem arrayExplorer_single_step :
    (∀ (dispatch : Dispatch) (expr : String) (v : Value) (is_child : Bool)
        (st : ExpState) (inp : String) (rest : List String),
        st.inputs = inp :: rest → parseInt inp = none →
        (ArrayExplorer.explore_expr dispatch expr v is_child st).1 = false) ∧
    (∀ (dispatch : Dispatch) (expr : String) (v : Value) (is_child : Bool)
        (st : ExpState) (inp : String) (rest : List String) (i : Int),
        st.inputs = inp :: rest → parseInt inp = some i →
        Value.readElem v i = none →
        (ArrayExplorer.explore_expr dispatch expr v is_child st).1 = true ∧
          Event.print (msgCannotRead i) ∈
            (ArrayExplorer.explore_expr dispatch expr v is_child st).2.trace) ∧
    (∀ (dispatch : Dispatch) (expr : String) (v : Value) (is_child : Bool)
        (st : ExpState) (inp : String) (rest : List String) (i : Int)
        (element : Value),
        st.inputs = inp :: rest → parseInt inp = some i →
        Value.readElem v i = some element →
        ∃ st' : ExpState,
          ArrayExplorer.explore_expr dispatch expr v is_child st =
            (true,
              dispatch
                (Explorer.guard_exprD expr ++ "[" ++ toString i ++ "]")
                element true st')) ∧
    childRecursions arraySession.trace =
      [Event.recurse "arr[0]" true, Event.recurse "arr[1]" true] := by
  refine ⟨?_, ?_, ?_, by decide⟩
  · intro dispatch expr v is_child st inp rest hin hp
    obtain ⟨ins, tr⟩ := st
    simp only at hin
    subst hin
    simp [ArrayExplorer.explore_expr, ExpState.readLine, ExpState.emit, hp]
  · intro dispatch expr v is_child st inp rest i hin hp hr
    obtain ⟨ins, tr⟩ := st
    simp only at hin
    subst hin
    cases rest <;>
      simp [ArrayExplorer.explore_expr, ExpState.readLine, ExpState.emit,
        hp, hr]
  · intro dispatch expr v is_child st inp rest i element hin hp hr
    obtain ⟨ins, tr⟩ := st
    simp only at hin
    subst hin
    refine ⟨{ inputs := rest,
              trace := tr ++
                [Event.print
                  (msgArrayHeader expr
                    (GType.name (GType.targetD (Value.vtype v)))),
                 Event.read (promptIndex expr) inp] }, ?_⟩
    simp [ArrayExplorer.explore_expr, ExpState.readLine, ExpState.emit,
      hp, hr]

/-- Witness for C1, instantiating each interactive case of
`arrayExplorer_single_step` on the concrete array value `arrVal`: the answer
`q` ends the exploration, index 7 is unreadable and repeats, index 1 reads
element 20 and recurses at path `arr[1]`. -/
theorem arrayExplorer_single_step_witness :
    ((ArrayExplorer.explore_expr (fun _ _ _ s => s) "arr" arrVal true
        { inputs := ["q"], trace := [] }).1 = false) ∧
    ((ArrayExplorer.explore_expr (fun _ _ _ s => s) "arr" arrVal true
        { inputs := ["7"], trace := [] }).1 = true) ∧
    (∃ st' : ExpState,
      ArrayExplorer.explore_expr (fun _ _ _ s => s) "arr" arrVal true
          { inputs := ["1"], trace := [] } =
        (true,
          (fun (_ : String) (_ : Value) (_ : Bool) (s : ExpState) => s)
            (Explorer.guard_exprD "arr" ++ "[" ++ toString (1 : Int) ++ "]")
            (scalarVal "20") true st')) :=
  ⟨arrayExplorer_single_step.1 (fun _ _ _ s => s) "arr" arrVal true
      { inputs := ["q"], trace := [] } "q" [] rfl (by decide),
   (arrayExplorer_single_step.2.1 (fun _ _ _ s => s) "arr" arrVal true
      { inputs := ["7"], trace := [] } "7" [] 7 rfl (by decide) rfl).1,
   arrayExplorer_single_step.2.2.1 (fun _ _ _ s => s) "arr" arrVal true
      { inputs := ["1"], trace := [] } "1" [] 1 (scalarVal "20") rfl
      (by decide) rfl⟩

/-- C2: the pointer-as-array loop of `PointerExplorer.explore_expr` ends
exactly on a non-integer answer (including the empty one); an index whose
element read raises `gdb.MemoryError` is reported and the loop continues
with the next prompt; a readable index is handed to the dispatcher at path
`guard(path)[index]` with `is_child = true` and the loop continues.
Consequently the session on the pointer `p` with answers `n`, `y`, `2`,
enter, `q` explores exactly the element `p[2]`, and the session with
answers `n`, `y`, `3` (unreadable), `4`, enter, `x` reports index 3 and
explores exactly the element `p[4]`. -/
theorem pointer_array_loop :
    (∀ (dispatch : Dispatch) (expr : String) (v : Value) (fuel : Nat)
        (st : ExpState) (inp : String) (rest : List String),
        st.inputs = inp :: rest → parseInt inp = none →
        PointerExplorer.explore_loop dispatch expr v (Nat.succ fuel) st =
          (ExpState.readLine st (promptIndex expr)).2) ∧
    (∀ (dispatch : Dispatch) (expr : String) (v : Value) (fuel : Nat)
        (st : ExpState) (inp : String) (rest : List String) (i : Int),
        st.inputs = inp :: rest → parseInt inp = some i →
        Value.readElem v i = none →
        PointerExplorer.explore_loop dispatch expr v (Nat.succ fuel) st =
          PointerExplorer.explore_loop dispatch expr v fuel
            (ExpState.emit (ExpState.readLine st (promptIndex expr)).2
              (Event.print (msgCannotRead i)))) ∧
    (∀ (dispatch : Dispatch) (expr : String) (v : Value) (fuel : Nat)
        (st : ExpState) (inp : String) (rest : List String) (i : Int)
        (element : Value),
        st.inputs = inp :: rest → parseInt inp = some i →
        Value.readElem v i = some element →
        PointerExplorer.explore_loop dispatch expr v (Nat.succ fuel) st =
          PointerExplorer.explore_loop dispatch expr v fuel
            (dispatch (Explorer.guard_exprD expr ++ "[" ++ toString i ++ "]")
              element true (ExpState.readLine st (promptIndex expr)).2)) ∧
    childRecursions ptrArraySession.trace = [Event.recurse "p[2]" true] ∧
    (Event.print (msgCannotRead 3) ∈ ptrArraySkipSession.trace ∧
      childRecursions ptrArraySkipSession.trace =
        [Event.recurse "p[4]" true]) := by
  refine ⟨?_, ?_, ?_, by decide, by decide⟩
  · intro dispatch expr v fuel st inp rest hin hp
    obtain ⟨ins, tr⟩ := st
    simp only at hin
    subst hin
    simp [PointerExplorer.explore_loop, ExpState.readLine, hp]
  · intro dispatch expr v fuel st inp rest i hin hp hr
    obtain ⟨ins, tr⟩ := st
    simp only at hin
    subst hin
    simp [PointerExplorer.explore_loop, ExpState.readLine, ExpState.emit,
      hp, hr]
  · intro dispatch expr v fuel st inp rest i element hin hp hr
    obtain ⟨ins, tr⟩ := st
    simp only at hin
    subst hin
    simp [PointerExplorer.explore_loop, ExpState.readLine, hp, hr]

/-- Witness for C2, instantiating the three loop cases of
`pointer_array_loop` on the concrete pointer value `ptrVal`: the empty
answer ends the loop, index 3 is reported and the loop continues, index 2
reads element 12 and is dispatched at path `p[2]`. -/
theorem pointer_array_loop_witness :
    (PointerExplorer.explore_loop (fun _ _ _ s => s) "p" ptrVal 5
        { inputs := [""], trace := [] } =
      (ExpState.readLine { inputs := [""], trace := [] }
        (promptIndex "p")).2) ∧
    (PointerExplorer.explore_loop (fun _ _ _ s => s) "p" ptrVal 5
        { inputs := ["3"], trace := [] } =
      PointerExplorer.explore_loop (fun _ _ _ s => s) "p" ptrVal 4
        (ExpState.emit
          (ExpState.readLine { inputs := ["3"], trace := [] }
            (promptIndex "p")).2
          (Event.print (msgCannotRead 3)))) ∧
    (PointerExplorer.explore_loop (fun _ _ _ s => s) "p" ptrVal 5
        { inputs := ["2"], trace := [] } =
      PointerExplorer.explore_loop (fun _ _ _ s => s) "p" ptrVal 4
        ((fun (_ : String) (_ : Value) (_ : Bool) (s : ExpState) => s)
          (Explorer.guard_exprD "p" ++ "[" ++ toString (2 : Int) ++ "]")
          (scalarVal "12") true
          (ExpState.readLine { inputs := ["2"], trace := [] }
            (promptIndex "p")).2)) :=
  ⟨pointer_array_loop.1 (fun _ _ _ s => s) "p" ptrVal 4
      { inputs := [""], trace := [] } "" [] rfl (by decide),
   pointer_array_loop.2.1 (fun _ _ _ s => s) "p" ptrVal 4
      { inputs := ["3"], trace := [] } "3" [] 3 rfl (by decide) rfl,
   pointer_array_loop.2.2.1 (fun _ _ _ s => s) "p" ptrVal 4
      { inputs := ["2"], trace := [] } "2" [] 2 (scalarVal "12") rfl
      (by decide) rfl⟩

/-- Counterexample to C3 as stated: at the root pointer node (`is_child =
false`) the dereference of `p` succeeds, and the recursion into the
dereferenced value happens with path `*p` and `is_child = false`, not
`is_child = true`. -/
theorem pointer_single_value_counterexample :
    Value.readDeref ptrVal = some (scalarVal "99") ∧
    Event.recurse "*p" false ∈ ptrSingleSession.trace ∧
    Event.recurse "*p" true ∉ ptrSingleSession.trace :=
  ⟨rfl, by decide, by decide⟩

/-- C3 (amended): in pointer exploration's single-value mode a successful
dereference recurses into expression exploration with path `*guard(path)`
and the pointer node's own `is_child` flag (`true` for every child pointer
node, `false` at the root), and on `gdb.MemoryError` the failure is reported
and the handler returns Return. -/
theorem pointer_single_value :
    (∀ (dispatch : Dispatch) (fuel : Nat) (expr : String) (v : Value)
        (is_child : Bool) (st : ExpState) (rest : List String) (d : Value),
        st.inputs = "y" :: rest → Value.readDeref v = some d →
        PointerExplorer.explore_expr dispatch fuel expr v is_child st =
          (false,
            dispatch ("*" ++ Explorer.guard_exprD expr) d is_child
              (ExpState.readLine
                (ExpState.emit st
                  (Event.print (msgPointerHeader expr
                    (GType.name (GType.targetD (Value.vtype v))))))
                promptSingleValue).2)) ∧
    (∀ (dispatch : Dispatch) (fuel : Nat) (expr : String) (v : Value)
        (is_child : Bool) (st : ExpState) (rest : List String),
        st.inputs = "y" :: rest → Value.readDeref v = none →
        (PointerExplorer.explore_expr dispatch fuel expr v is_child st).1 =
            false ∧
          Event.print (msgInvalidPointer expr) ∈
            (PointerExplorer.explore_expr dispatch fuel expr v is_child
              st).2.trace) := by
  constructor
  · intro dispatch fuel expr v is_child st rest d hin hr
    obtain ⟨ins, tr⟩ := st
    simp only at hin
    subst hin
    simp [PointerExplorer.explore_expr, ExpState.readLine, ExpState.emit, hr]
  · intro dispatch fuel expr v is_child st rest hin hr
    obtain ⟨ins, tr⟩ := st
    simp only at hin
    subst hin
    cases is_child <;> cases rest <;>
      simp [PointerExplorer.explore_expr, ExpState.readLine, ExpState.emit,
        hr]

/-- Witness for the amended C3, instantiating both cases at the root
(`is_child = false`): `ptrVal` dereferences to the scalar 99 and recurses at
path `*p` with `is_child = false`; `badPtrVal` reports the invalid
location and returns Return. -/
theorem pointer_single_value_witness :
    (PointerExplorer.explore_expr (fun _ _ _ s => s) 5 "p" ptrVal false
        { inputs := ["y"], trace := [] } =
      (false,
        (fun (_ : String) (_ : Value) (_ : Bool) (s : ExpState) => s)
          ("*" ++ Explorer.guard_exprD "p") (scalarVal "99") false
          (ExpState.readLine
            (ExpState.emit { inputs := ["y"], trace := [] }
              (Event.print (msgPointerHeader "p"
                (GType.name (GType.targetD (Value.vtype ptrVal))))))
            promptSingleValue).2)) ∧
    ((PointerExplorer.explore_expr (fun _ _ _ s => s) 5 "p" badPtrVal false
        { inputs := ["y"], trace := [] }).1 = false ∧
      Event.print (msgInvalidPointer "p") ∈
        (PointerExplorer.explore_expr (fun _ _ _ s => s) 5 "p" badPtrVal
          false { inputs := ["y"], trace := [] }).2.trace) :=
  ⟨pointer_single_value.1 (fun _ _ _ s => s) 5 "p" ptrVal false
      { inputs := ["y"], trace := [] } [] (scalarVal "99") rfl rfl,
   pointer_single_value.2 (fun _ _ _ s => s) 5 "p" badPtrVal false
      { inputs := ["y"], trace := [] } [] rfl rfl⟩

/-- C4: for a union, the field menu built by `CompoundExplorer.explore_expr`
offers every one of the `N` non-artificial fields as a numbered explorable
choice (numbered consecutively from 0), regardless of whether the field's
type is scalar, so there are exactly `N` numbered choices. -/
theorem union_menu_offers_all_fields (expr : String) (v : Value)
    (fields : List GField) :
    (CompoundExplorer.buildMenu TypeCode.tUnion expr v fields).print_list =
      (List.enumFrom 0 (realFields fields)).map
        (fun p =>
          (GField.name p.2,
            "<Enter " ++ toString p.1 ++
              " to explore this field of type \x27" ++
              GType.name (GField.ftype p.2) ++ "\x27>")) ∧
    (CompoundExplorer.buildMenu TypeCode.tUnion expr v
          fields).print_list.length =
      CompoundExplorer.get_real_field_count fields ∧
    (CompoundExplorer.buildMenu TypeCode.tUnion expr v
          fields).current_choice =
      CompoundExplorer.get_real_field_count fields := by
  rw [CompoundExplorer.buildMenu, menu_foldl_eq]
  refine ⟨?_, ?_, ?_⟩
  · simp [literalFor]
  · simp [CompoundExplorer.get_real_field_count, realFields]
  · simp [CompoundExplorer.get_real_field_count, realFields]

/-- C5: for a struct whose non-artificial fields are a scalar field `a`
followed by a struct field `b` (neither a base class), the menu renders
`a`'s value inline — not as a numbered choice — and offers exactly one
numbered explorable choice, `b`. -/
theorem struct_scalar_struct_menu (expr : String) (v : Value)
    (fields : List GField) (fa fb : GField)
    (hreal : realFields fields = [fa, fb])
    (hfa_base : GField.is_base_class fa = false)
    (hfa_scalar : Explorer.is_scalar_type (GField.ftype fa) = true)
    (hfb_base : GField.is_base_class fb = false)
    (hfb_struct : GType.code (GField.ftype fb) = TypeCode.tStruct) :
    (CompoundExplorer.buildMenu TypeCode.tStruct expr v fields).print_list =
      [(GField.name fa,
        Value.vstr (Value.getField v (GField.name fa)) ++
          " .. (Value of type \x27" ++ GType.name (GField.ftype fa) ++
          "\x27)"),
       (GField.name fb,
        "<Enter 1 to explore this field of type \x27" ++
          GType.name (GField.ftype fb) ++ "\x27>")] := by
  have hfb_scalar : Explorer.is_scalar_type (GField.ftype fb) = false := by
    simp [Explorer.is_scalar_type, hfb_struct]
  have h1 : toString (1 : Nat) = "1" := rfl
  rw [CompoundExplorer.buildMenu, menu_foldl_eq, hreal]
  simp [List.enumFrom, literalFor, fieldValueOf, hfa_base, hfa_scalar,
    hfb_base, hfb_scalar, h1]

/-- Witness for C5 at the concrete struct value `sVal` (scalar field `a`
reading 10, struct field `b`). -/
theorem struct_scalar_struct_menu_witness :
    (CompoundExplorer.buildMenu TypeCode.tStruct "s" sVal
        [fieldA, fieldB]).print_list =
      [(GField.name fieldA,
        Value.vstr (Value.getField sVal (GField.name fieldA)) ++
          " .. (Value of type \x27" ++ GType.name (GField.ftype fieldA) ++
          "\x27)"),
       (GField.name fieldB,
        "<Enter 1 to explore this field of type \x27" ++
          GType.name (GField.ftype fieldB) ++ "\x27>")] :=
  struct_scalar_struct_menu "s" sVal [fieldA, fieldB] fieldA fieldB
    rfl rfl rfl rfl rfl

/-- Counterexample to C6 as stated: a field-less struct explored as a child
node does issue one further prompt — the press-enter-to-return prompt of
`Explorer.return_to_parent_value_prompt` — before returning. -/
theorem compound_no_fields_counterexample :
    CompoundExplorer.get_real_field_count
        (GType.fields (Value.vtype eVal)) = 0 ∧
    (CompoundExplorer.explore_expr (fun _ _ _ s => s) "e" eVal true
        { inputs := [""], trace := [] }).2.trace =
      [Event.print (msgNoFields "e" "struct/class" "struct E"),
       Event.read promptReturnParent ""] := by
  exact ⟨by decide, by decide⟩

/-- C6 (amended): a struct value with zero non-artificial fields is reported
as having no fields and the handler returns Return without ever offering a
field choice; at the root no prompt at all is issued, while as a child node
exactly one press-enter-to-return prompt is issued first. -/
theorem compound_no_fields (dispatch : Dispatch) (expr : String) (v : Value)
    (is_child : Bool) (st : ExpState)
    (hcode : GType.code (Value.vtype v) = TypeCode.tStruct)
    (hcnt : CompoundExplorer.get_real_field_count
        (GType.fields (Value.vtype v)) = 0) :
    CompoundExplorer.explore_expr dispatch expr v is_child st =
      (false,
        if is_child then
          (ExpState.readLine
            (ExpState.emit st
              (Event.print (msgNoFields expr "struct/class"
                (GType.name (Value.vtype v)))))
            promptReturnParent).2
        else
          ExpState.emit st
            (Event.print (msgNoFields expr "struct/class"
              (GType.name (Value.vtype v))))) := by
  cases is_child <;>
    simp [CompoundExplorer.explore_expr, hcode, hcnt]

/-- Witness for the amended C6: exploring the field-less struct `eVal` as a
child with one pending answer, and at the root. -/
theorem compound_no_fields_witness :
    (CompoundExplorer.explore_expr (fun _ _ _ s => s) "e" eVal true
        { inputs := [""], trace := [] } =
      (false,
        (ExpState.readLine
          (ExpState.emit { inputs := [""], trace := [] }
            (Event.print (msgNoFields "e" "struct/class"
              (GType.name (Value.vtype eVal)))))
          promptReturnParent).2)) ∧
    (CompoundExplorer.explore_expr (fun _ _ _ s => s) "e" eVal false
        { inputs := [], trace := [] } =
      (false,
        ExpState.emit { inputs := [], trace := [] }
          (Event.print (msgNoFields "e" "struct/class"
            (GType.name (Value.vtype eVal)))))) :=
  ⟨compound_no_fields (fun _ _ _ s => s) "e" eVal true
      { inputs := [""], trace := [] } rfl rfl,
   compound_no_fields (fun _ _ _ s => s) "e" eVal false
      { inputs := [], trace := [] } rfl rfl⟩

/-- C9: in struct exploration every non-artificial field — the inline scalar
fields included — receives a consecutive choice number in the accepted-input
map; entering the number of an inline scalar field (`0` for `a` in `sVal`)
explores that field, and the numbers displayed beside the explorable fields
skip the numbers consumed by the inline fields (`b` is shown with number 1,
not 0). -/
theorem struct_choice_map_numbers :
    (∀ (expr : String) (v : Value) (fields : List GField),
        (CompoundExplorer.buildMenu TypeCode.tStruct expr v
            fields).choice_to_compound_field_map =
          (List.enumFrom 0 (realFields fields)).map
            (fun p =>
              (toString p.1,
                Explorer.guard_exprD expr ++ "." ++ GField.name p.2,
                fieldValueOf v p.2))) ∧
    childRecursions structSession.trace = [Event.recurse "s.a" true] ∧
    (CompoundExplorer.buildMenu TypeCode.tStruct "s" sVal
        [fieldA, fieldB]).print_list =
      [("a", "10 .. (Value of type \x27int\x27)"),
       ("b", "<Enter 1 to explore this field of type \x27struct B\x27>")] := by
  refine ⟨?_, by decide, by decide⟩
  intro expr v fields
  rw [CompoundExplorer.buildMenu, menu_foldl_eq]
  simp
